import Mathlib

/-!
# TriFetch cardiac-event pipeline: a shallow embedding

This file embeds the data model and operations of the TriFetch repository
(ECG waveform preprocessing, display downsampling, vision classification,
and the React event-detail view) and proves the spec-level properties about
them.  Components whose Python sources are absent from the repository
snapshot (`classifier.py`, `preprocess.py`, `main.py`) are modelled from the
specification; the React components (`EpisodesDataTable.tsx`,
`EventDetails.tsx`) are embedded from their source.
-/

set_option autoImplicit false

namespace TriFetch

/-! ## Classification vocabulary and service model -/

/-- The seven-label arrhythmia vocabulary the classifier is constrained to
(spec section 3, ClassificationResult). -/
def labelVocab : List String := ["AFIB", "VTACH", "PAUSE", "SVT", "NORMAL", "PVC", "UNKNOWN"]

/-- Ways the external vision-classification call can fail
(spec section 4.4: network error, timeout, malformed response, quota/auth error). -/
inductive ServiceFailure where
  | network
  | timeout
  | malformed
  | quotaAuth
deriving DecidableEq

/-- Outcome of one call to the external vision service: either a raw text
label with a confidence, or a failure. -/
inductive ServiceResult where
  | ok (text : String) (confidence : ℚ)
  | err (f : ServiceFailure)

/-- The fixed degraded-mode confidence (spec section 4.4, observed value 0.7). -/
def fallbackConfidence : ℚ := 7 / 10

/-- Whitespace test used for trimming a service response. -/
def isWs (c : Char) : Bool := c == ' ' || c == '\t' || c == '\n' || c == '\r'

/-- Trim leading and trailing whitespace from a character list. -/
def trimChars (l : List Char) : List Char :=
  ((l.dropWhile isWs).reverse.dropWhile isWs).reverse

/-- Modelled from the spec: `classifier.py` is not in the repository
snapshot.  Success-path response normalization (spec section 4.4): the
returned text is trimmed and upper-cased before being matched against the
vocabulary. -/
def normalizeText (s : String) : String :=
  String.mk ((trimChars s.data).map Char.toUpper)

/-- Modelled from the spec: `classifier.py` is not in the repository
snapshot.  Parse a successful service response into `(predicted,
confidence)`: a (case-insensitive, trimmed) vocabulary match is kept as the
canonical label with the service confidence; anything else maps to UNKNOWN
with confidence reduced to reflect uncertainty (the reduction factor is
unspecified by the spec; modelled as halving). -/
def parseServiceResponse (raw : String) (c : ℚ) : String × ℚ :=
  let t := normalizeText raw
  if labelVocab.contains t then (t, c) else ("UNKNOWN", c / 2)

/-- Modelled from the spec: `classifier.py` is not in the repository
snapshot.  Classify one event given its ground-truth label and the outcome
of the (single) external service call.  Failure path (spec section 4.4):
the failure is not propagated; the ground truth of the event itself is returned as
`predicted` with the fixed reduced confidence. -/
def classify (groundTruth : String) (svc : ServiceResult) : String × ℚ :=
  match svc with
  | .ok text conf => parseServiceResponse text conf
  | .err _ => (groundTruth, fallbackConfidence)

/-! ## WaveformAssembler (spec section 4.1) -/

/-- Configuration of the preprocessing batch job: expected segment count,
per-segment sample count, channel count (observed: 3 segments of 6000
samples, 2 channels; treated as configuration). -/
structure AssemblerConfig where
  segCount : ℕ
  segLength : ℕ
  channels : ℕ

/-- Preprocessing failures (spec section 7). -/
inductive AssembleError where
  | MissingSegment
  | ShapeMismatch
deriving DecidableEq

/-- A raw segment is valid when its row count matches the declared
per-segment sample count and every row has the declared channel count. -/
def validSegment (cfg : AssemblerConfig) (seg : List (List ℤ)) : Bool :=
  seg.length == cfg.segLength && seg.all (fun row => row.length == cfg.channels)

/-- Modelled from the spec: `preprocess.py` is not in the repository
snapshot.  Assemble the raw segments of an event (in temporal order) into one
continuous trace: fail with MissingSegment when fewer than the required
number of segments are present, with ShapeMismatch when the dimensions of
any segment disagree with the configuration, and otherwise concatenate the
segments in the given order. -/
def assemble (cfg : AssemblerConfig) (segs : List (List (List ℤ))) :
    Except AssembleError (List (List ℤ)) :=
  if segs.length < cfg.segCount then .error .MissingSegment
  else if segs.all (validSegment cfg) then .ok segs.flatten
  else .error .ShapeMismatch

/-! ## Downsampler (spec section 4.2) -/

/-- The derived, ephemeral display series (spec section 3): decimated
two-channel amplitudes, the parallel time axis in seconds, and the
display-scaled event-start offset. -/
structure DisplaySeries where
  amplitudes : List (ℤ × ℤ)
  timeAxis : List ℚ
  startSampleDisplay : ℕ

/-- Modelled from the spec: `main.py` is not in the repository snapshot.
Fixed-ratio decimation (spec section 4.2): keep every F-th sample of the
two-channel trace (simple stride selection, no averaging or filtering),
yielding ceil(N / F) samples, a time axis t[k] = k * F / sourceRate, and
the display-scaled start offset startSample / F (integer division). -/
def downsample (trace : List (ℤ × ℤ)) (F : ℕ) (sourceRate : ℕ) (startSample : ℕ) :
    DisplaySeries where
  amplitudes := (List.range ((trace.length + F - 1) / F)).map (fun k => trace.getD (k * F) (0, 0))
  timeAxis :=
    (List.range ((trace.length + F - 1) / F)).map (fun k => ((k * F : ℕ) : ℚ) / (sourceRate : ℚ))
  startSampleDisplay := startSample / F

/-- From src/react/src/components/EpisodesDataTable.tsx, ECGPlot: the
event-start marker time in seconds is start_sample_display * 0.02. -/
def eventTimeSeconds (startSampleDisplay : ℕ) : ℚ :=
  (startSampleDisplay : ℚ) * (0.02 : ℚ)

/-- Every decimated index selects a position inside the original trace. -/
lemma stride_index_lt {N F k : ℕ} (hF : 0 < F) (hk : k < (N + F - 1) / F) :
    k * F < N := by
  have h1 : (k + 1) * F ≤ N + F - 1 := (Nat.le_div_iff_mul_le hF).mp hk
  have h2 : (k + 1) * F = k * F + F := by ring
  set m := k * F
  omega

/-- The natural-number formula (N + F - 1) / F computes the ceiling of the
rational N / F. -/
lemma ceil_div_eq_add_pred_div (N F : ℕ) (hF : 0 < F) :
    ⌈(N : ℚ) / (F : ℚ)⌉₊ = (N + F - 1) / F := by
  rcases Nat.eq_zero_or_pos N with h0 | hN
  · subst h0
    rw [Nat.div_eq_of_lt (by omega)]
    simp
  · set n := (N + F - 1) / F with hn
    have hn1 : 1 ≤ n := by
      rw [hn, Nat.le_div_iff_mul_le hF]
      omega
    have hmul : n * F ≤ N + F - 1 := by
      rw [hn]
      exact Nat.div_mul_le_self _ _
    have hNle : N ≤ n * F := by
      by_contra hcon
      push_neg at hcon
      have h1 : (n + 1) * F ≤ N + F - 1 := by
        have h2 : (n + 1) * F = n * F + F := by ring
        rw [h2]
        set b := n * F
        omega
      have h3 : n + 1 ≤ n := by
        rw [hn]
        exact (Nat.le_div_iff_mul_le hF).mpr h1
      omega
    have hsplit : (n - 1) * F + F = n * F := by
      have h4 : n - 1 + 1 = n := by omega
      calc (n - 1) * F + F = (n - 1 + 1) * F := by ring
        _ = n * F := by rw [h4]
    have hlt : (n - 1) * F < N := by
      set a := (n - 1) * F
      set b := n * F
      omega
    have hFQ : (0 : ℚ) < (F : ℚ) := by exact_mod_cast hF
    rw [Nat.ceil_eq_iff (by omega)]
    constructor
    · rw [lt_div_iff₀ hFQ]
      exact_mod_cast hlt
    · rw [div_le_iff₀ hFQ]
      exact_mod_cast hNle

/-! ## React frontend: ECGPlot and EventDetails (src/react/src) -/

/-- From ECGPlot (EpisodesDataTable.tsx): channel 0 of the ecg payload
(Lead I), as exact rationals. -/
def lead1 (ecg : List (ℤ × ℤ)) : List ℚ := ecg.map (fun p => (p.1 : ℚ))

/-- From ECGPlot (EpisodesDataTable.tsx): channel 1 of the ecg payload
(Lead II), as exact rationals. -/
def lead2 (ecg : List (ℤ × ℤ)) : List ℚ := ecg.map (fun p => (p.2 : ℚ))

/-- Arithmetic mean as computed by the reduce-and-divide in ECGPlot. -/
def listMean (l : List ℚ) : ℚ := l.sum / (l.length : ℚ)

/-- From ECGPlot: displayed Lead I, normalized by subtracting its mean. -/
def lead1Data (ecg : List (ℤ × ℤ)) : List ℚ :=
  (lead1 ecg).map (fun v => v - listMean (lead1 ecg))

/-- From ECGPlot: displayed Lead II, normalized by subtracting its mean
and offset downward by the fixed constant 2000. -/
def lead2Data (ecg : List (ℤ × ℤ)) : List ℚ :=
  (lead2 ecg).map (fun v => v - listMean (lead2 ecg) - 2000)

/-- The fixed vertical separation between the two displayed baselines. -/
def lead2Offset : ℚ := 2000

/-- Peak-to-peak amplitude range of a series. -/
def peakToPeak (l : List ℚ) : ℚ :=
  match l.max?, l.min? with
  | some hi, some lo => hi - lo
  | _, _ => 0

/-- From ECGPlot: the confidence badge text next to the percentage. -/
def confidenceBadge (c : ℚ) : String :=
  if (0.9 : ℚ) ≤ c then "High" else if (0.7 : ℚ) ≤ c then "Medium" else "Low"

/-- A wide-amplitude two-channel trace whose peak-to-peak range (5000)
exceeds the fixed 2000 display offset. -/
def ecgWide : List (ℤ × ℤ) := [(0, 0), (5000, 5000)]

/-- HTTP-level outcome of the event-detail endpoint. -/
inductive ApiResponse (α : Type) where
  | ok (body : α)
  | notFound
deriving DecidableEq

/-- Modelled from the spec: `main.py` is not in the repository snapshot.
Event-detail lookup (spec section 6): the metadata store either yields the
payload recorded for the requested event id or a NotFound (HTTP 404)
result. -/
def getEventDetail {α : Type} (store : List (String × α)) (eventId : String) : ApiResponse α :=
  match store.find? (fun p => p.1 == eventId) with
  | some p => .ok p.2
  | none => .notFound

/-- Final view state of the EventDetails page after loading finishes. -/
inductive ViewState (α : Type) where
  | loaded (d : α)
  | errorState (msg : String)
deriving DecidableEq

/-- From src/react/src/pages/EventDetails.tsx, fetchEventDetails: one
fetch of the event URL; a non-ok response throws, which the catch turns
into an error state shown instead of event data; no further request is
made.  The second component records the event ids requested, in order. -/
def fetchEventDetails {α : Type} (backend : String → ApiResponse α) (eventId : String) :
    ViewState α × List String :=
  match backend eventId with
  | .ok d => (.loaded d, [eventId])
  | .notFound => (.errorState "Failed to fetch event details", [eventId])

end TriFetch

namespace TriFetch

/-- C1: on every service failure (network, timeout, malformed, quota/auth)
the classifier does not propagate the failure: it returns the ground-truth
label of the event itself as `predicted` with the fixed confidence 0.7,
so the caller always receives a `(predicted, confidence)` pair. -/
theorem classify_fallback_c1 (gt : String) (f : ServiceFailure) :
    classify gt (.err f) = (gt, fallbackConfidence) ∧
    fallbackConfidence = 7 / 10 ∧
    classify "SVT" (.err .timeout) = ("SVT", 7 / 10) := by
  refine ⟨rfl, rfl, rfl⟩

/-- C6: the classifier matches a service response case-insensitively after
trimming against the seven-label vocabulary; a matching response such as
"afib" maps to the canonical label AFIB, a non-matching response such as
"Tachycardia" maps to UNKNOWN with reduced confidence. -/
theorem label_normalization_c6 (c : ℚ) (hc : 0 < c) :
    (∀ raw : String, labelVocab.contains (normalizeText raw) = true →
      parseServiceResponse raw c = (normalizeText raw, c)) ∧
    (∀ raw : String, labelVocab.contains (normalizeText raw) = false →
      (parseServiceResponse raw c).1 = "UNKNOWN" ∧ (parseServiceResponse raw c).2 < c) ∧
    (parseServiceResponse "afib" c).1 = "AFIB" ∧
    (parseServiceResponse " SVT " c).1 = "SVT" ∧
    (parseServiceResponse "Tachycardia" c).1 = "UNKNOWN" := by
  refine ⟨?_, ?_, rfl, rfl, rfl⟩
  · intro raw h
    have hm : normalizeText raw ∈ labelVocab := by simpa using h
    simp [parseServiceResponse, hm]
  · intro raw h
    have hm : normalizeText raw ∉ labelVocab := by simpa using h
    constructor
    · simp [parseServiceResponse, hm]
    · simp only [parseServiceResponse]
      rw [if_neg (by simpa using hm)]
      simpa using half_lt_self hc

/-- Witness for C6 at the concrete confidence value 1. -/
theorem label_normalization_c6_witness :
    (0 : ℚ) < 1 ∧
    ((∀ raw : String, labelVocab.contains (normalizeText raw) = true →
      parseServiceResponse raw 1 = (normalizeText raw, 1)) ∧
    (∀ raw : String, labelVocab.contains (normalizeText raw) = false →
      (parseServiceResponse raw 1).1 = "UNKNOWN" ∧ (parseServiceResponse raw 1).2 < 1) ∧
    (parseServiceResponse "afib" 1).1 = "AFIB" ∧
    (parseServiceResponse " SVT " 1).1 = "SVT" ∧
    (parseServiceResponse "Tachycardia" 1).1 = "UNKNOWN") :=
  ⟨by norm_num, label_normalization_c6 1 (by norm_num)⟩

/-- C3: when the three raw segments of an event are present (well shaped),
the assembler output is exactly the elementwise concatenation
seg1 ++ seg2 ++ seg3 in the given temporal order, each row (hence the
channel order) preserved, with total length the sum of the three segment
lengths. -/
theorem assemble_concat_c3 (cfg : AssemblerConfig) (s1 s2 s3 : List (List ℤ))
    (hc : cfg.segCount = 3)
    (h1 : validSegment cfg s1 = true)
    (h2 : validSegment cfg s2 = true)
    (h3 : validSegment cfg s3 = true) :
    assemble cfg [s1, s2, s3] = .ok (s1 ++ s2 ++ s3) ∧
    (s1 ++ s2 ++ s3).length = s1.length + s2.length + s3.length ∧
    (∀ i : ℕ, i < s1.length → (s1 ++ s2 ++ s3)[i]? = s1[i]?) ∧
    (∀ i : ℕ, i < s2.length → (s1 ++ s2 ++ s3)[s1.length + i]? = s2[i]?) ∧
    (∀ i : ℕ, i < s3.length → (s1 ++ s2 ++ s3)[s1.length + s2.length + i]? = s3[i]?) := by
  refine ⟨?_, by simp; omega, ?_, ?_, ?_⟩
  · simp only [assemble, hc]
    rw [if_neg (by simp), if_pos (by simp [h1, h2, h3])]
    simp
  · intro i hi
    rw [List.getElem?_append, if_pos (by simp; omega), List.getElem?_append, if_pos hi]
  · intro i hi
    rw [List.getElem?_append, if_pos (by simp; omega), List.getElem?_append,
      if_neg (by omega)]
    simp
  · intro i hi
    rw [List.getElem?_append, if_neg (by simp)]
    congr 1
    simp only [List.length_append]
    omega

/-- Witness for C3: three concrete two-channel segments of length 2. -/
theorem assemble_concat_c3_witness :
    (AssemblerConfig.mk 3 2 2).segCount = 3 ∧
    validSegment (AssemblerConfig.mk 3 2 2) [[1, 2], [3, 4]] = true ∧
    validSegment (AssemblerConfig.mk 3 2 2) [[5, 6], [7, 8]] = true ∧
    validSegment (AssemblerConfig.mk 3 2 2) [[9, 10], [11, 12]] = true ∧
    (assemble (AssemblerConfig.mk 3 2 2) [[[1, 2], [3, 4]], [[5, 6], [7, 8]], [[9, 10], [11, 12]]] =
      .ok ([[1, 2], [3, 4]] ++ [[5, 6], [7, 8]] ++ [[9, 10], [11, 12]]) ∧
    (([[1, 2], [3, 4]] : List (List ℤ)) ++ [[5, 6], [7, 8]] ++ [[9, 10], [11, 12]]).length =
      ([[1, 2], [3, 4]] : List (List ℤ)).length + ([[5, 6], [7, 8]] : List (List ℤ)).length +
      ([[9, 10], [11, 12]] : List (List ℤ)).length ∧
    (∀ i : ℕ, i < ([[1, 2], [3, 4]] : List (List ℤ)).length →
      (([[1, 2], [3, 4]] : List (List ℤ)) ++ [[5, 6], [7, 8]] ++ [[9, 10], [11, 12]])[i]? =
        ([[1, 2], [3, 4]] : List (List ℤ))[i]?) ∧
    (∀ i : ℕ, i < ([[5, 6], [7, 8]] : List (List ℤ)).length →
      (([[1, 2], [3, 4]] : List (List ℤ)) ++ [[5, 6], [7, 8]] ++
        [[9, 10], [11, 12]])[([[1, 2], [3, 4]] : List (List ℤ)).length + i]? =
        ([[5, 6], [7, 8]] : List (List ℤ))[i]?) ∧
    (∀ i : ℕ, i < ([[9, 10], [11, 12]] : List (List ℤ)).length →
      (([[1, 2], [3, 4]] : List (List ℤ)) ++ [[5, 6], [7, 8]] ++
        [[9, 10], [11, 12]])[([[1, 2], [3, 4]] : List (List ℤ)).length +
          ([[5, 6], [7, 8]] : List (List ℤ)).length + i]? =
        ([[9, 10], [11, 12]] : List (List ℤ))[i]?)) :=
  ⟨rfl, by decide, by decide, by decide,
    assemble_concat_c3 (AssemblerConfig.mk 3 2 2) [[1, 2], [3, 4]] [[5, 6], [7, 8]]
      [[9, 10], [11, 12]] rfl (by decide) (by decide) (by decide)⟩

/-- C2: for every two-channel trace and every decimation factor F greater
than 1, the downsampled amplitude series has length ceil(N / F) and its
k-th entry is exactly the trace sample at index k * F (pure stride
selection of both channels at once, hence per channel). -/
theorem downsample_stride_c2 (tr : List (ℤ × ℤ)) (F r s : ℕ) (hF : 1 < F) :
    (downsample tr F r s).amplitudes.length = ⌈(tr.length : ℚ) / (F : ℚ)⌉₊ ∧
    ∀ k : ℕ, k < (downsample tr F r s).amplitudes.length →
      (downsample tr F r s).amplitudes[k]? = tr[k * F]? := by
  constructor
  · simp [downsample, ceil_div_eq_add_pred_div tr.length F (by omega)]
  · intro k hk
    have hk2 : k < (tr.length + F - 1) / F := by
      simpa [downsample] using hk
    have hlt : k * F < tr.length := stride_index_lt (by omega) hk2
    simp only [downsample]
    rw [List.getElem?_map, List.getElem?_range hk2]
    simp [List.getD_eq_getElem?_getD, List.getElem?_eq_getElem hlt]

/-- Witness for C2 at a concrete 5-sample trace with factor 2. -/
theorem downsample_stride_c2_witness :
    (1 : ℕ) < 2 ∧
    ((downsample [(1, 10), (2, 20), (3, 30), (4, 40), (5, 50)] 2 200 0).amplitudes.length =
      ⌈(([(1, 10), (2, 20), (3, 30), (4, 40), (5, 50)] : List (ℤ × ℤ)).length : ℚ) / (2 : ℚ)⌉₊ ∧
    ∀ k : ℕ,
      k < (downsample [(1, 10), (2, 20), (3, 30), (4, 40), (5, 50)] 2 200 0).amplitudes.length →
      (downsample [(1, 10), (2, 20), (3, 30), (4, 40), (5, 50)] 2 200 0).amplitudes[k]? =
        ([(1, 10), (2, 20), (3, 30), (4, 40), (5, 50)] : List (ℤ × ℤ))[k * 2]?) :=
  ⟨by norm_num,
    downsample_stride_c2 [(1, 10), (2, 20), (3, 30), (4, 40), (5, 50)] 2 200 0 (by norm_num)⟩

/-- C4: the display-scaled event-start offset is exactly the integer floor
division start_sample / F (characterized by d * F being the largest
multiple of F not exceeding start_sample), and 8645 with F = 4 yields
2161. -/
theorem start_sample_scaling_c4 (trace : List (ℤ × ℤ)) (F r s : ℕ) (hF : 0 < F) :
    (downsample trace F r s).startSampleDisplay = s / F ∧
    (downsample trace F r s).startSampleDisplay * F ≤ s ∧
    s < (downsample trace F r s).startSampleDisplay * F + F ∧
    (downsample trace 4 r 8645).startSampleDisplay = 2161 := by
  refine ⟨rfl, ?_, ?_, by norm_num [downsample]⟩
  · simpa [downsample] using Nat.div_mul_le_self s F
  · simp only [downsample]
    have hmod : s % F < F := Nat.mod_lt _ hF
    have hdm : F * (s / F) + s % F = s := Nat.div_add_mod s F
    rw [Nat.mul_comm]
    set a := F * (s / F) with ha
    set b := s % F with hb
    omega

/-- Witness for C4 at start_sample 8645 with factor 4. -/
theorem start_sample_scaling_c4_witness :
    (0 : ℕ) < 4 ∧
    ((downsample [] 4 200 8645).startSampleDisplay = 8645 / 4 ∧
    (downsample [] 4 200 8645).startSampleDisplay * 4 ≤ 8645 ∧
    8645 < (downsample [] 4 200 8645).startSampleDisplay * 4 + 4 ∧
    (downsample [] 4 200 8645).startSampleDisplay = 2161) :=
  ⟨by norm_num, start_sample_scaling_c4 [] 4 200 8645 (by norm_num)⟩

/-- C5: the display time axis satisfies time[k] = k * F / sourceRate
seconds; with the observed configuration F = 4 and sourceRate = 200 the
frontend marker drawn at start_sample_display * 0.02 seconds coincides
with time[start_sample_display]. -/
theorem time_axis_marker_c5 (trace : List (ℤ × ℤ)) (F r s : ℕ) :
    (∀ k : ℕ, k < (downsample trace F r s).timeAxis.length →
      (downsample trace F r s).timeAxis[k]? = some (((k * F : ℕ) : ℚ) / (r : ℚ))) ∧
    eventTimeSeconds (downsample trace 4 200 s).startSampleDisplay =
      (((downsample trace 4 200 s).startSampleDisplay * 4 : ℕ) : ℚ) / (200 : ℚ) ∧
    (∀ d : ℕ, d = (downsample trace 4 200 s).startSampleDisplay →
      d < (downsample trace 4 200 s).timeAxis.length →
      (downsample trace 4 200 s).timeAxis[d]? = some (eventTimeSeconds d)) := by
  refine ⟨?_, ?_, ?_⟩
  · intro k hk
    have hk2 : k < (trace.length + F - 1) / F := by
      simpa [downsample] using hk
    simp only [downsample]
    rw [List.getElem?_map, List.getElem?_range hk2]
    rfl
  · simp only [eventTimeSeconds]
    push_cast
    ring_nf
  · intro d hd hlen
    have hk2 : d < (trace.length + 4 - 1) / 4 := by
      simpa [downsample] using hlen
    simp only [downsample]
    rw [List.getElem?_map, List.getElem?_range hk2]
    simp only [eventTimeSeconds]
    push_cast
    ring_nf
    norm_num

/-- Witness for C5 at a concrete 9-sample trace with start_sample 8. -/
theorem time_axis_marker_c5_witness :
    (∀ k : ℕ,
      k < (downsample [(0, 0), (1, 1), (2, 2), (3, 3), (4, 4), (5, 5), (6, 6), (7, 7), (8, 8)]
        4 200 8).timeAxis.length →
      (downsample [(0, 0), (1, 1), (2, 2), (3, 3), (4, 4), (5, 5), (6, 6), (7, 7), (8, 8)]
        4 200 8).timeAxis[k]? = some (((k * 4 : ℕ) : ℚ) / ((200 : ℕ) : ℚ))) ∧
    eventTimeSeconds (downsample [(0, 0), (1, 1), (2, 2), (3, 3), (4, 4), (5, 5), (6, 6),
        (7, 7), (8, 8)] 4 200 8).startSampleDisplay =
      (((downsample [(0, 0), (1, 1), (2, 2), (3, 3), (4, 4), (5, 5), (6, 6), (7, 7), (8, 8)]
        4 200 8).startSampleDisplay * 4 : ℕ) : ℚ) / (200 : ℚ) ∧
    (∀ d : ℕ, d = (downsample [(0, 0), (1, 1), (2, 2), (3, 3), (4, 4), (5, 5), (6, 6), (7, 7),
        (8, 8)] 4 200 8).startSampleDisplay →
      d < (downsample [(0, 0), (1, 1), (2, 2), (3, 3), (4, 4), (5, 5), (6, 6), (7, 7),
        (8, 8)] 4 200 8).timeAxis.length →
      (downsample [(0, 0), (1, 1), (2, 2), (3, 3), (4, 4), (5, 5), (6, 6), (7, 7),
        (8, 8)] 4 200 8).timeAxis[d]? = some (eventTimeSeconds d)) :=
  time_axis_marker_c5 [(0, 0), (1, 1), (2, 2), (3, 3), (4, 4), (5, 5), (6, 6), (7, 7), (8, 8)]
    4 200 8

/-- Summing a mean-shifted list subtracts length-many copies of the shift. -/
lemma sum_map_sub_const (l : List ℚ) (m : ℚ) :
    (l.map (fun v => v - m)).sum = l.sum - (l.length : ℚ) * m := by
  induction l with
  | nil => simp
  | cons a t ih =>
    simp only [List.map_cons, List.sum_cons, List.length_cons, ih]
    push_cast
    ring

/-- C7 fails on the code: for the wide-amplitude trace `ecgWide` the fixed
2000 display offset does not exceed the larger of the two per-channel
peak-to-peak ranges (both 5000), and the displayed traces do overlap: the
Lead I value at index 0 lies strictly below the Lead II value at index 1. -/
theorem channel_overlap_c7_counterexample :
    ¬ (max (peakToPeak (lead1 ecgWide)) (peakToPeak (lead2 ecgWide)) < lead2Offset) ∧
    (lead1Data ecgWide).getD 0 0 < (lead2Data ecgWide).getD 1 0 := by
  have h1 : lead1 ecgWide = [0, 5000] := by simp [lead1, ecgWide]
  have h2 : lead2 ecgWide = [0, 5000] := by simp [lead2, ecgWide]
  have hp : peakToPeak [0, 5000] = 5000 := by
    norm_num [peakToPeak, List.max?, List.min?, max_def, min_def]
  have hm : listMean [0, 5000] = 2500 := by norm_num [listMean]
  constructor
  · rw [h1, h2, hp]
    norm_num [lead2Offset]
  · have hd1 : lead1Data ecgWide = [-2500, 2500] := by
      rw [lead1Data, h1, hm]
      norm_num
    have hd2 : lead2Data ecgWide = [-4500, 500] := by
      rw [lead2Data, h2, hm]
      norm_num
    rw [hd1, hd2]
    norm_num [List.getD]

/-- C7 amended: the two displayed traces are separated by the fixed,
data-independent constant offset 2000 applied to the mean-centered Lead
II; the plotted channels are guaranteed not to overlap only under an
amplitude bound, namely when every sample of each channel deviates from
the mean of that channel by less than half the offset. -/
theorem channel_separation_c7_amended (ecg : List (ℤ × ℤ))
    (h1 : ∀ v ∈ lead1 ecg, |v - listMean (lead1 ecg)| < 1000)
    (h2 : ∀ v ∈ lead2 ecg, |v - listMean (lead2 ecg)| < 1000) :
    (∀ i : ℕ, (lead2Data ecg)[i]? =
      (((lead2 ecg).map (fun v => v - listMean (lead2 ecg)))[i]?).map
        (fun v => v - lead2Offset)) ∧
    ∀ y ∈ lead2Data ecg, ∀ x ∈ lead1Data ecg, y < x := by
  constructor
  · intro i
    simp only [lead2Data, lead2Offset, List.getElem?_map, Option.map_map]
    rfl
  · intro y hy x hx
    obtain ⟨w, hw, rfl⟩ := List.mem_map.mp hy
    obtain ⟨v, hv, rfl⟩ := List.mem_map.mp hx
    have hbv := h1 v hv
    have hbw := h2 w hw
    rw [abs_lt] at hbv hbw
    linarith [hbv.1, hbw.2]

/-- Witness for the amended C7 at a concrete low-amplitude trace. -/
theorem channel_separation_c7_witness :
    (∀ v ∈ lead1 [(10, 20), (30, 40)], |v - listMean (lead1 [(10, 20), (30, 40)])| < 1000) ∧
    (∀ v ∈ lead2 [(10, 20), (30, 40)], |v - listMean (lead2 [(10, 20), (30, 40)])| < 1000) ∧
    ((∀ i : ℕ, (lead2Data [(10, 20), (30, 40)])[i]? =
      (((lead2 [(10, 20), (30, 40)]).map
        (fun v => v - listMean (lead2 [(10, 20), (30, 40)])))[i]?).map
        (fun v => v - lead2Offset)) ∧
    ∀ y ∈ lead2Data [(10, 20), (30, 40)], ∀ x ∈ lead1Data [(10, 20), (30, 40)], y < x) :=
  ⟨by norm_num [lead1, listMean, abs_lt], by norm_num [lead2, listMean, abs_lt],
    channel_separation_c7_amended [(10, 20), (30, 40)]
      (by norm_num [lead1, listMean, abs_lt]) (by norm_num [lead2, listMean, abs_lt])⟩

/-- C8: for every event id absent from the metadata store the event-detail
endpoint returns a NotFound (HTTP 404) result rather than a payload, and
the frontend then shows an error state instead of event data, having
issued exactly one request (no retry). -/
theorem event_not_found_c8 {α : Type} (store : List (String × α)) (eventId : String)
    (habs : ∀ p ∈ store, p.1 ≠ eventId) :
    getEventDetail store eventId = .notFound ∧
    fetchEventDetails (getEventDetail store) eventId =
      (.errorState "Failed to fetch event details", [eventId]) := by
  have hfind : store.find? (fun p => p.1 == eventId) = none := by
    rw [List.find?_eq_none]
    intro p hp
    simpa using habs p hp
  constructor
  · simp [getEventDetail, hfind]
  · simp [fetchEventDetails, getEventDetail, hfind]

/-- Witness for C8: a one-event store queried with a missing id. -/
theorem event_not_found_c8_witness :
    (∀ p ∈ [("74001891", (0 : ℕ))], p.1 ≠ "missing") ∧
    (getEventDetail [("74001891", (0 : ℕ))] "missing" = .notFound ∧
    fetchEventDetails (getEventDetail [("74001891", (0 : ℕ))]) "missing" =
      (.errorState "Failed to fetch event details", ["missing"])) :=
  ⟨by decide, event_not_found_c8 [("74001891", (0 : ℕ))] "missing" (by decide)⟩

/-- C9: for a non-empty ecg payload, ECGPlot plots each lead mean-centered
(the displayed Lead I value at index i is ecg[i].1 minus the channel-0
mean, the displayed Lead II value is ecg[i].2 minus the channel-1 mean
minus the fixed constant 2000), and the displayed Lead I values sum to
zero. -/
theorem lead_centering_c9 (ecg : List (ℤ × ℤ)) (h : ecg ≠ []) :
    (∀ i : ℕ, (lead1Data ecg)[i]? =
      (ecg[i]?).map (fun p => (p.1 : ℚ) - listMean (lead1 ecg))) ∧
    (∀ i : ℕ, (lead2Data ecg)[i]? =
      (ecg[i]?).map (fun p => (p.2 : ℚ) - listMean (lead2 ecg) - 2000)) ∧
    (lead1Data ecg).sum = 0 := by
  refine ⟨?_, ?_, ?_⟩
  · intro i
    simp only [lead1Data, lead1, List.getElem?_map, Option.map_map]
    rfl
  · intro i
    simp only [lead2Data, lead2, List.getElem?_map, Option.map_map]
    rfl
  · have hlen : ecg.length ≠ 0 := by
      simpa [List.length_eq_zero] using h
    have hQ : ((ecg.length : ℕ) : ℚ) ≠ 0 := Nat.cast_ne_zero.mpr hlen
    have hlen1 : (lead1 ecg).length = ecg.length := by simp [lead1]
    rw [lead1Data, sum_map_sub_const, listMean, hlen1]
    field_simp

/-- Witness for C9 at a concrete two-sample payload. -/
theorem lead_centering_c9_witness :
    ([((1 : ℤ), (2 : ℤ)), (3, 4)] ≠ ([] : List (ℤ × ℤ))) ∧
    ((∀ i : ℕ, (lead1Data [(1, 2), (3, 4)])[i]? =
      (([((1 : ℤ), (2 : ℤ)), (3, 4)] : List (ℤ × ℤ))[i]?).map
        (fun p => (p.1 : ℚ) - listMean (lead1 [(1, 2), (3, 4)]))) ∧
    (∀ i : ℕ, (lead2Data [(1, 2), (3, 4)])[i]? =
      (([((1 : ℤ), (2 : ℤ)), (3, 4)] : List (ℤ × ℤ))[i]?).map
        (fun p => (p.2 : ℚ) - listMean (lead2 [(1, 2), (3, 4)]) - 2000)) ∧
    (lead1Data [(1, 2), (3, 4)]).sum = 0) :=
  ⟨by decide, lead_centering_c9 [(1, 2), (3, 4)] (by decide)⟩

/-- C10: the confidence badge shown by ECGPlot reads High exactly when the
confidence is at least 0.9, Medium exactly when it is at least 0.7 and
below 0.9, and Low otherwise; the fallback confidence 0.7 is displayed as
Medium. -/
theorem confidence_badge_c10 (c : ℚ) :
    (confidenceBadge c = "High" ↔ (0.9 : ℚ) ≤ c) ∧
    (confidenceBadge c = "Medium" ↔ (0.7 : ℚ) ≤ c ∧ c < (0.9 : ℚ)) ∧
    (confidenceBadge c = "Low" ↔ c < (0.7 : ℚ)) ∧
    confidenceBadge fallbackConfidence = "Medium" := by
  have hfb : confidenceBadge fallbackConfidence = "Medium" := by
    rw [confidenceBadge, if_neg (by norm_num [fallbackConfidence]),
      if_pos (by norm_num [fallbackConfidence])]
  refine ⟨?_, ?_, ?_, hfb⟩ <;>
    (rw [confidenceBadge]; split_ifs with ha hb <;> simp_all <;> linarith)

end TriFetch
